import Mathlib

/-!
Verification model of the Starlink Enterprise API client request pipeline
(`src/enterprise/api/base_api.ts`), the pagination aggregation pattern of the
account model (`src/enterprise/models/account.ts`), and the service-line save
logic (`src/enterprise/models/service_line.ts`).

The network is modelled as a pair of oracles carried in a `World` record: a
queue of responses for the authentication endpoint and a queue of responses
for Enterprise REST calls, consumed in order by successive calls.  Time is a
millisecond clock that advances on every network event, matching the
single-threaded cooperative execution model of the source.  A function
returns `none` when its oracle queue is exhausted: theorems always supply
enough queued responses, so `none` never models source behaviour, only a
truncated oracle.
-/

namespace StarlinkSpec

/-- HTTP methods used by the client (subset of the HTTP_METHOD enumeration). -/
inductive HTTP_METHOD
  | DELETE
  | GET
  | PATCH
  | POST
  | PUT
deriving DecidableEq, Repr

/-- A bearer token as cached in the static `BaseAPI.token` slot. -/
structure Token where
  access_token : String
  token_type : String
deriving DecidableEq, Repr

/-- Response of the OAuth2 client-credentials exchange at
`https://api.starlink.com/auth/connect/token`: the `ok` flag of the HTTP
response and the optional `access_token` field of the parsed JSON body. -/
structure AuthResponse where
  ok : Bool
  access_token : Option String
  token_type : String
deriving DecidableEq, Repr

/-- An HTTP response from the Enterprise REST base URL, with parsed JSON body
of type `β`. -/
structure HttpResponse (β : Type) where
  ok : Bool
  status : Nat
  statusText : String
  url : String
  body : β
deriving DecidableEq, Repr

/-- The request descriptor: method, endpoint path, query parameters and
optional serialized payload (JSON serialization is abstracted to a string). -/
structure RequestDescriptor where
  method : HTTP_METHOD
  endpoint : String
  params : List (String × String)
  payload : Option String
deriving DecidableEq, Repr

/-- A rate-window cache key as written by `BaseAPI.cache.set`: the composite
of `Date.now()` and the request descriptor fields. -/
structure CacheKey where
  date : Nat
  method : HTTP_METHOD
  endpoint : String
  params : List (String × String)
  payload : Option String
deriving DecidableEq, Repr

/-- The whole mutable world seen by the pipeline: the static token slot, the
rate-window cache keys, a millisecond clock, the two network oracles, a log
of dispatched Enterprise REST requests, and a counter of `authenticate`
invocations. -/
structure World (β : Type) where
  token : Option Token
  cacheKeys : List CacheKey
  clock : Nat
  authQueue : List AuthResponse
  httpQueue : List (HttpResponse β)
  httpLog : List RequestDescriptor
  authCalls : Nat
deriving DecidableEq, Repr

/-- `BaseAPI.requestLimit = 250`. -/
def requestLimit : Nat := 250

/-- The cache time-to-live: `stdTTL: 60` seconds, in clock milliseconds. -/
def cacheTTL : Nat := 60000

/-- `BaseAPI.requestCount()`: the number of non-expired rate-window keys. -/
def requestCount {β : Type} (w : World β) : Nat :=
  (w.cacheKeys.filter (fun k => w.clock < k.date + cacheTTL)).length

/-- `BaseAPI.authenticate()`: posts to the auth endpoint.  If the response is
not ok, returns false (leaving the token slot untouched).  Otherwise, if the
body carries an `access_token`, stores the token and returns true; if not,
deletes the cached token and returns false. -/
def authenticate {β : Type} (w : World β) : Option (Bool × World β) :=
  match w.authQueue with
  | [] => none
  | r :: rest =>
    let w' : World β :=
      { w with
          authQueue := rest
          authCalls := w.authCalls + 1
          clock := w.clock + 1 }
    if r.ok = false then some (false, w')
    else
      match r.access_token with
      | some tok => some (true, { w' with token := some ⟨tok, r.token_type⟩ })
      | none => some (false, { w' with token := none })

/-- Errors thrown by `execute`: the authentication failure, or an HTTP
failure carrying the resolved URL, status code and status text. -/
inductive ApiError
  | authError
  | httpError (url : String) (status : Nat) (statusText : String)
deriving DecidableEq, Repr

/-- The thrown error's message string. -/
def ApiError.message : ApiError → String
  | .authError => "Could not authenticate with API"
  | .httpError url status text => url ++ " [" ++ toString status ++ "] " ++ text

/-- The rate-window insertion `BaseAPI.cache.set({date, endpoint, method,
params, payload}, {})`: keys are deduplicated (an existing identical key is
overwritten), so the insert removes any equal key before appending. -/
def recordRequest {β : Type} (m : HTTP_METHOD) (e : String)
    (p : List (String × String)) (pl : Option String) (w : World β) :
    World β :=
  let k : CacheKey := ⟨w.clock, m, e, p, pl⟩
  { w with cacheKeys := w.cacheKeys.filter (fun x => x ≠ k) ++ [k] }

/-- Lines 118-166 of `base_api.ts` inside `execute`: the soft rate-limit
backoff (sleep 100ms when within 5 of the limit), the rate-window insertion,
and the fetch dispatch consuming the next queued Enterprise response. -/
def dispatch {β : Type} (m : HTTP_METHOD) (e : String)
    (p : List (String × String)) (pl : Option String) (w : World β) :
    Option (HttpResponse β × World β) :=
  let w₂ : World β :=
    if requestLimit - 5 ≤ requestCount w then { w with clock := w.clock + 100 }
    else w
  let w₃ := recordRequest m e p pl w₂
  match w₃.httpQueue with
  | [] => none
  | r :: rest =>
    some (r,
      { w₃ with
          httpQueue := rest
          httpLog := w₃.httpLog ++ [⟨m, e, p, pl⟩]
          clock := w₃.clock + 1 })

/-- Outcome of one attempt of `execute` up to receiving an HTTP response:
either the pre-flight authentication failed, or a response was received. -/
inductive AttemptOutcome (β : Type)
  | authFailed
  | response (r : HttpResponse β)
deriving DecidableEq, Repr

/-- One attempt of `execute` (lines 113-166 of `base_api.ts`): the pre-flight
`!BaseAPI.token && !await this.authenticate()` check followed by `dispatch`. -/
def executeAttempt {β : Type} (m : HTTP_METHOD) (e : String)
    (p : List (String × String)) (pl : Option String) (w : World β) :
    Option (AttemptOutcome β × World β) :=
  match w.token with
  | some _ =>
    match dispatch m e p pl w with
    | none => none
    | some (r, w₁) => some (.response r, w₁)
  | none =>
    match authenticate w with
    | none => none
    | some (false, w₁) => some (.authFailed, w₁)
    | some (true, w₁) =>
      match dispatch m e p pl w₁ with
      | none => none
      | some (r, w₂) => some (.response r, w₂)

/-- The `is_retry = true` run of `execute`: any non-ok response throws the
descriptive HTTP error, with no further retry. -/
def executeRetried {β : Type} (m : HTTP_METHOD) (e : String)
    (p : List (String × String)) (pl : Option String) (w : World β) :
    Option (Except ApiError β × World β) :=
  match executeAttempt m e p pl w with
  | none => none
  | some (.authFailed, w') => some (.error .authError, w')
  | some (.response r, w') =>
    if r.ok then some (.ok r.body, w')
    else some (.error (.httpError r.url r.status r.statusText), w')

/-- `BaseAPI.execute(method, endpoint, params, payload, is_retry)`
(lines 105-190 of `base_api.ts`): pre-flight auth, rate backoff, rate-window
insertion, dispatch; an ok response returns its parsed body; a 401 on a first
attempt re-authenticates and, on success, replays the identical request once
with `is_retry = true`; every other failure (including re-authentication
failure) throws the descriptive HTTP error. -/
def execute {β : Type} (m : HTTP_METHOD) (e : String)
    (p : List (String × String)) (pl : Option String) (is_retry : Bool)
    (w : World β) : Option (Except ApiError β × World β) :=
  match executeAttempt m e p pl w with
  | none => none
  | some (.authFailed, w') => some (.error .authError, w')
  | some (.response r, w') =>
    if r.ok then some (.ok r.body, w')
    else
      if r.status = 401 ∧ is_retry = false then
        match authenticate w' with
        | none => none
        | some (true, w'') => executeRetried m e p pl w''
        | some (false, w'') =>
          some (.error (.httpError r.url r.status r.statusText), w'')
      else some (.error (.httpError r.url r.status r.statusText), w')

/-- The paged `content` block of a list endpoint's response envelope
(`Starlink.Common.PagedContent`): totalCount, pageIndex, limit, isLastPage
and the page's results. -/
structure PageEnvelope (α : Type) where
  totalCount : Nat
  pageIndex : Nat
  limit : Nat
  isLastPage : Bool
  results : List α
deriving DecidableEq, Repr

/-- The page-index/limit parameters carried by one issued page request. -/
structure PageRequest where
  page : Nat
  limit : Nat
deriving DecidableEq, Repr

/-- The options object of the list-fetch methods after defaulting:
`{ limit, page, all }`. -/
structure FetchOptions where
  limit : Nat
  page : Nat
  all : Bool
deriving DecidableEq, Repr

/-- The aggregation-integrity failure thrown by the fetch-all loops. -/
inductive FetchError
  | aggregation
deriving DecidableEq, Repr

/-- The aggregation error's message string. -/
def FetchError.message : FetchError → String
  | .aggregation => "Could not fetch all results"

/-- The do-while aggregation loop shared in shape by every list endpoint of
`account.ts` (e.g. `fetch_addresses` lines 237-246, `fetch_subscriptions`
lines 608-617, `fetch_user_terminals` lines 767-781): starting from page
index `page`, request a page with the fixed internal page size `pageSize`,
append that page's results (mapped to domain objects by `f`), and continue
with the next index until a page reports `isLastPage`.  `pages` is the
oracle of successive page envelopes returned by the server; the returned log
records the page/limit parameters of each issued request in order.  `none`
models only oracle exhaustion (a request that never got a response). -/
def fetchAllLoop {α γ : Type} (pageSize : Nat) (f : α → γ) :
    Nat → List (PageEnvelope α) → List γ → List PageRequest →
    Option (List γ × PageEnvelope α × List PageRequest)
  | _, [], _, _ => none
  | page, pg :: rest, acc, log =>
    let log' := log ++ [⟨page, pageSize⟩]
    let acc' := acc ++ pg.results.map f
    if pg.isLastPage then some (acc', pg, log')
    else fetchAllLoop pageSize f (page + 1) rest acc' log'

/-- `Account.fetch_addresses` (lines 222-254 of `account.ts`): when
`options.all` is false, issue exactly one request with the caller-supplied
page and limit and return that page's raw results; otherwise aggregate all
pages with internal page size 100 and check the total count. -/
def fetch_addresses {α : Type} (options : FetchOptions)
    (pages : List (PageEnvelope α)) :
    Option (Except FetchError (List α) × List PageRequest) :=
  if options.all = false then
    match pages with
    | [] => none
    | pg :: _ => some (.ok pg.results, [⟨options.page, options.limit⟩])
  else
    match fetchAllLoop 100 (fun x => x) 0 pages [] [] with
    | none => none
    | some (results, last, log) =>
      if results.length ≠ last.totalCount then
        some (.error .aggregation, log)
      else some (.ok results, log)

/-- `Account.fetch_subscriptions` (lines 592-625 of `account.ts`): one page
with the caller's page/limit when `options.all` is false (results mapped
through `transformSubscription`, modelled by `transform`), otherwise
aggregation with internal page size 50 and the total-count check. -/
def fetch_subscriptions {α γ : Type} (transform : α → γ)
    (options : FetchOptions) (pages : List (PageEnvelope α)) :
    Option (Except FetchError (List γ) × List PageRequest) :=
  if options.all = false then
    match pages with
    | [] => none
    | pg :: _ =>
      some (.ok (pg.results.map transform), [⟨options.page, options.limit⟩])
  else
    match fetchAllLoop 50 transform 0 pages [] [] with
    | none => none
    | some (results, last, log) =>
      if results.length ≠ last.totalCount then
        some (.error .aggregation, log)
      else some (.ok results, log)

/-- `Account.fetch_user_terminals` (lines 746-789 of `account.ts`): one page
with the caller's page/limit when `options.all` is false (results mapped to
attach the account number, modelled by `transform`), otherwise aggregation
with internal page size 100 and the total-count check. -/
def fetch_user_terminals {α γ : Type} (transform : α → γ)
    (options : FetchOptions) (pages : List (PageEnvelope α)) :
    Option (Except FetchError (List γ) × List PageRequest) :=
  if options.all = false then
    match pages with
    | [] => none
    | pg :: _ =>
      some (.ok (pg.results.map transform), [⟨options.page, options.limit⟩])
  else
    match fetchAllLoop 100 transform 0 pages [] [] with
    | none => none
    | some (results, last, log) =>
      if results.length ≠ last.totalCount then
        some (.error .aggregation, log)
      else some (.ok results, log)

/-- The three dirty flags of a `ServiceLine` instance. -/
structure ServiceLineFlags where
  nickname_updated : Bool
  product_updated : Bool
  public_ip_updated : Bool
deriving DecidableEq, Repr

/-- The claim-relevant fields of the wrapped
`Starlink.Management.Response.ServiceLine` record (date fields and other
payload data orthogonal to the claims are elided). -/
structure ServiceLineModel where
  accountNumber : String
  serviceLineNumber : String
  nickname : Option String
  productReferenceId : String
  publicIp : Bool
deriving DecidableEq, Repr

/-- Endpoint of the nickname PUT in `ServiceLine.save`. -/
def nicknameEndpoint (sl : ServiceLineModel) : String :=
  "/enterprise/v1/account/" ++ sl.accountNumber ++ "/service-lines/"
    ++ sl.serviceLineNumber ++ "/nickname"

/-- Endpoint of the product PUT in `ServiceLine.save`. -/
def productEndpoint (sl : ServiceLineModel) : String :=
  "/enterprise/v1/account/" ++ sl.accountNumber ++ "/service-lines/"
    ++ sl.serviceLineNumber ++ "/product/" ++ sl.productReferenceId

/-- Endpoint of the public-ip PUT in `ServiceLine.save`. -/
def publicIpEndpoint (sl : ServiceLineModel) : String :=
  "/enterprise/v1/account/" ++ sl.accountNumber ++ "/service-lines/"
    ++ sl.serviceLineNumber ++ "/public-ip"

/-- Serialized `{ nickname }` body of the nickname PUT (JSON encoding
abstracted to a marker string). -/
def nicknamePayload (sl : ServiceLineModel) : String :=
  "nickname:" ++ sl.nickname.getD "null"

/-- Serialized `{ publicIp }` body of the public-ip PUT (JSON encoding
abstracted to a marker string). -/
def publicIpPayload (sl : ServiceLineModel) : String :=
  "publicIp:" ++ toString sl.publicIp

/-- Tail of `ServiceLine.save` (lines 251-264 of `service_line.ts`): if any
PUT succeeded, `response` holds the last response body; the instance is
replaced by it (re-attaching the account number) and save returns true;
otherwise save returns false. -/
def saveFinish (response : Option ServiceLineModel) (fl : ServiceLineFlags)
    (sl : ServiceLineModel) (w : World ServiceLineModel) :
    Option (Bool × ServiceLineFlags × ServiceLineModel
      × World ServiceLineModel) :=
  match response with
  | some b => some (true, fl, { b with accountNumber := sl.accountNumber }, w)
  | none => some (false, fl, sl, w)

/-- Public-ip step of `ServiceLine.save` (lines 238-249 of
`service_line.ts`): when the public-ip flag is dirty, PUT the public-ip
endpoint; on success clear the flag and continue, on a thrown error return
false immediately. -/
def savePublicIpStep (response : Option ServiceLineModel)
    (fl : ServiceLineFlags) (sl : ServiceLineModel)
    (w : World ServiceLineModel) :
    Option (Bool × ServiceLineFlags × ServiceLineModel
      × World ServiceLineModel) :=
  if fl.public_ip_updated then
    match execute .PUT (publicIpEndpoint sl) [] (some (publicIpPayload sl))
        false w with
    | none => none
    | some (.error _, w₁) => some (false, fl, sl, w₁)
    | some (.ok b, w₁) =>
      saveFinish (some b) { fl with public_ip_updated := false } sl w₁
  else saveFinish response fl sl w

/-- Product step of `ServiceLine.save` (lines 225-236 of
`service_line.ts`): when the product flag is dirty, PUT the product endpoint
(no body); on success clear the flag and continue, on a thrown error return
false immediately. -/
def saveProductStep (response : Option ServiceLineModel)
    (fl : ServiceLineFlags) (sl : ServiceLineModel)
    (w : World ServiceLineModel) :
    Option (Bool × ServiceLineFlags × ServiceLineModel
      × World ServiceLineModel) :=
  if fl.product_updated then
    match execute .PUT (productEndpoint sl) [] none false w with
    | none => none
    | some (.error _, w₁) => some (false, fl, sl, w₁)
    | some (.ok b, w₁) =>
      savePublicIpStep (some b) { fl with product_updated := false } sl w₁
  else savePublicIpStep response fl sl w

/-- `ServiceLine.save` (lines 209-265 of `service_line.ts`): sequential
nickname, product, public-ip PUTs, each guarded by its dirty flag; the first
thrown error returns false, leaving the already-applied earlier updates in
place with their flags cleared. -/
def save (fl : ServiceLineFlags) (sl : ServiceLineModel)
    (w : World ServiceLineModel) :
    Option (Bool × ServiceLineFlags × ServiceLineModel
      × World ServiceLineModel) :=
  if fl.nickname_updated then
    match execute .PUT (nicknameEndpoint sl) [] (some (nicknamePayload sl))
        false w with
    | none => none
    | some (.error _, w₁) => some (false, fl, sl, w₁)
    | some (.ok b, w₁) =>
      saveProductStep (some b) { fl with nickname_updated := false } sl w₁
  else saveProductStep none fl sl w

/-- URL of the user-terminal/service-line attachment used by
`ServiceLine.add_terminal` and `ServiceLine.remove_terminal`. -/
def terminalAttachEndpoint
    (accountNumber terminalId serviceLineNumber : String) : String :=
  "/enterprise/v1/account/" ++ accountNumber ++ "/user-terminals/"
    ++ terminalId ++ "/" ++ serviceLineNumber

/-- URL of the account-level user-terminal resource used by
`Account.add_user_terminal` and `Account.remove_user_terminal`. -/
def userTerminalEndpoint (accountNumber deviceId : String) : String :=
  "/enterprise/v1/account/" ++ accountNumber ++ "/user-terminals/"
    ++ deviceId

/-- `ServiceLine.add_terminal` (lines 48-66 of `service_line.ts`): POST the
attachment URL inside try/catch; any thrown error becomes false, completion
becomes true. -/
def add_terminal {β : Type}
    (accountNumber terminalId serviceLineNumber : String) (w : World β) :
    Option (Bool × World β) :=
  match execute .POST
      (terminalAttachEndpoint accountNumber terminalId serviceLineNumber)
      [] none false w with
  | none => none
  | some (.ok _, w') => some (true, w')
  | some (.error _, w') => some (false, w')

/-- `ServiceLine.remove_terminal` (lines 186-204 of `service_line.ts`):
DELETE the attachment URL inside try/catch. -/
def remove_terminal {β : Type}
    (accountNumber terminalId serviceLineNumber : String) (w : World β) :
    Option (Bool × World β) :=
  match execute .DELETE
      (terminalAttachEndpoint accountNumber terminalId serviceLineNumber)
      [] none false w with
  | none => none
  | some (.ok _, w') => some (true, w')
  | some (.error _, w') => some (false, w')

/-- `Account.add_user_terminal` (lines 68-78 of `account.ts`): POST the
user-terminal URL inside try/catch. -/
def add_user_terminal {β : Type} (accountNumber deviceId : String)
    (w : World β) : Option (Bool × World β) :=
  match execute .POST (userTerminalEndpoint accountNumber deviceId)
      [] none false w with
  | none => none
  | some (.ok _, w') => some (true, w')
  | some (.error _, w') => some (false, w')

/-- `Account.remove_user_terminal` (lines 826-834 of `account.ts`): DELETE
the user-terminal URL inside try/catch. -/
def remove_user_terminal {β : Type} (accountNumber deviceId : String)
    (w : World β) : Option (Bool × World β) :=
  match execute .DELETE (userTerminalEndpoint accountNumber deviceId)
      [] none false w with
  | none => none
  | some (.ok _, w') => some (true, w')
  | some (.error _, w') => some (false, w')

/-- Running `authenticate` with at least one queued auth response: it returns
true exactly when the response is ok and carries an access token; the token
slot is updated only on an ok response (stored token on success, cleared on a
missing access token), and is left unchanged on a non-ok response. -/
theorem authenticate_run {β : Type} (w : World β) (r : AuthResponse)
    (rest : List AuthResponse) (hQ : w.authQueue = r :: rest) :
    authenticate w = some ((r.ok && r.access_token.isSome),
      { w with
          authQueue := rest
          authCalls := w.authCalls + 1
          clock := w.clock + 1
          token := if r.ok = false then w.token
                   else r.access_token.map (fun a => ⟨a, r.token_type⟩) }) := by
  unfold authenticate
  rw [hQ]
  cases hok : r.ok <;> cases hat : r.access_token <;> simp [hok, hat]

/-- Running `dispatch` with at least one queued HTTP response: it consumes
exactly that response, appends the request descriptor to the dispatch log,
inserts one rate-window key carrying the descriptor and the current
(post-backoff) clock, and touches neither the token slot nor the auth
oracle. -/
theorem dispatch_run {β : Type} (m : HTTP_METHOD) (e : String)
    (p : List (String × String)) (pl : Option String) (w : World β)
    (r : HttpResponse β) (rest : List (HttpResponse β))
    (hQ : w.httpQueue = r :: rest) :
    ∃ (k : CacheKey) (w₁ : World β),
      dispatch m e p pl w = some (r, w₁) ∧
      k.method = m ∧ k.endpoint = e ∧ k.params = p ∧ k.payload = pl ∧
      w.clock ≤ k.date ∧ k.date ≤ w.clock + 100 ∧
      w₁.token = w.token ∧ w₁.authQueue = w.authQueue ∧
      w₁.authCalls = w.authCalls ∧ w₁.httpQueue = rest ∧
      w₁.httpLog = w.httpLog ++ [⟨m, e, p, pl⟩] ∧
      w₁.cacheKeys = w.cacheKeys.filter (fun x => x ≠ k) ++ [k] ∧
      w₁.clock = k.date + 1 := by
  by_cases hb : requestLimit - 5 ≤ requestCount w
  · refine ⟨⟨w.clock + 100, m, e, p, pl⟩,
      { w with
          cacheKeys := w.cacheKeys.filter
              (fun x => x ≠ ⟨w.clock + 100, m, e, p, pl⟩)
            ++ [⟨w.clock + 100, m, e, p, pl⟩]
          httpQueue := rest
          httpLog := w.httpLog ++ [⟨m, e, p, pl⟩]
          clock := w.clock + 100 + 1 },
      ?_, rfl, rfl, rfl, rfl, Nat.le_add_right w.clock 100, le_refl _, rfl,
      rfl, rfl, rfl, rfl, rfl, rfl⟩
    simp [dispatch, recordRequest, hb, hQ]
  · refine ⟨⟨w.clock, m, e, p, pl⟩,
      { w with
          cacheKeys := w.cacheKeys.filter
              (fun x => x ≠ ⟨w.clock, m, e, p, pl⟩)
            ++ [⟨w.clock, m, e, p, pl⟩]
          httpQueue := rest
          httpLog := w.httpLog ++ [⟨m, e, p, pl⟩]
          clock := w.clock + 1 },
      ?_, rfl, rfl, rfl, rfl, le_refl _, Nat.le_add_right w.clock 100, rfl,
      rfl, rfl, rfl, rfl, rfl, rfl⟩
    simp [dispatch, recordRequest, hb, hQ]

/-- `executeAttempt` with a cached token: the pre-flight authentication is
skipped (auth oracle and counter untouched) and the call dispatches. -/
theorem executeAttempt_token {β : Type} (m : HTTP_METHOD) (e : String)
    (p : List (String × String)) (pl : Option String) (w : World β)
    (t : Token) (r : HttpResponse β) (rest : List (HttpResponse β))
    (hTok : w.token = some t) (hQ : w.httpQueue = r :: rest) :
    ∃ (k : CacheKey) (w₁ : World β),
      executeAttempt m e p pl w = some (.response r, w₁) ∧
      k.method = m ∧ k.endpoint = e ∧ k.params = p ∧ k.payload = pl ∧
      w.clock ≤ k.date ∧ k.date ≤ w.clock + 100 ∧
      w₁.token = some t ∧ w₁.authQueue = w.authQueue ∧
      w₁.authCalls = w.authCalls ∧ w₁.httpQueue = rest ∧
      w₁.httpLog = w.httpLog ++ [⟨m, e, p, pl⟩] ∧
      w₁.cacheKeys = w.cacheKeys.filter (fun x => x ≠ k) ++ [k] ∧
      w₁.clock = k.date + 1 := by
  obtain ⟨k, w₁, hd, hkm, hke, hkp, hkpl, hkd, hkd2, ht, haq, hac, hhq, hhl,
    hck, hcl⟩ := dispatch_run m e p pl w r rest hQ
  exact ⟨k, w₁, by simp [executeAttempt, hTok, hd], hkm, hke, hkp, hkpl, hkd,
    hkd2, ht.trans hTok, haq, hac, hhq, hhl, hck, hcl⟩

/-- `executeAttempt` with no cached token and a successful queued auth
response: the pre-flight authentication runs once, stores the token, and the
call dispatches. -/
theorem executeAttempt_auth {β : Type} (m : HTTP_METHOD) (e : String)
    (p : List (String × String)) (pl : Option String) (w : World β)
    (a : AuthResponse) (arest : List AuthResponse) (atok : String)
    (r : HttpResponse β) (rest : List (HttpResponse β))
    (hTok : w.token = none) (hA : w.authQueue = a :: arest)
    (hOk : a.ok = true) (hAt : a.access_token = some atok)
    (hQ : w.httpQueue = r :: rest) :
    ∃ (k : CacheKey) (w₁ : World β),
      executeAttempt m e p pl w = some (.response r, w₁) ∧
      k.method = m ∧ k.endpoint = e ∧ k.params = p ∧ k.payload = pl ∧
      w.clock ≤ k.date ∧ k.date ≤ w.clock + 101 ∧
      w₁.token = some ⟨atok, a.token_type⟩ ∧ w₁.authQueue = arest ∧
      w₁.authCalls = w.authCalls + 1 ∧ w₁.httpQueue = rest ∧
      w₁.httpLog = w.httpLog ++ [⟨m, e, p, pl⟩] ∧
      w₁.cacheKeys = w.cacheKeys.filter (fun x => x ≠ k) ++ [k] ∧
      w₁.clock = k.date + 1 := by
  have hauth : authenticate w = some (true,
      { w with
          authQueue := arest
          authCalls := w.authCalls + 1
          clock := w.clock + 1
          token := some ⟨atok, a.token_type⟩ }) := by
    simpa [hOk, hAt] using authenticate_run w a arest hA
  obtain ⟨k, w₁, hd, hkm, hke, hkp, hkpl, hkd, hkd2, ht, haq, hac, hhq, hhl,
    hck, hcl⟩ := dispatch_run m e p pl
      { w with
          authQueue := arest
          authCalls := w.authCalls + 1
          clock := w.clock + 1
          token := some ⟨atok, a.token_type⟩ } r rest hQ
  refine ⟨k, w₁, by simp [executeAttempt, hTok, hauth, hd], hkm, hke, hkp,
    hkpl, ?_, ?_, by simpa using ht, by simpa using haq, by simpa using hac,
    hhq, by simpa using hhl, by simpa using hck, hcl⟩
  · exact le_trans (Nat.le_succ w.clock) hkd
  · simpa using hkd2

/-- `executeAttempt` with no cached token and a failing queued auth response:
the attempt ends in the pre-flight authentication failure, before any
rate-window insertion and before any HTTP dispatch. -/
theorem executeAttempt_authFail {β : Type} (m : HTTP_METHOD) (e : String)
    (p : List (String × String)) (pl : Option String) (w : World β)
    (a : AuthResponse) (arest : List AuthResponse)
    (hTok : w.token = none) (hA : w.authQueue = a :: arest)
    (hFail : a.ok = false ∨ a.access_token = none) :
    ∃ w₁ : World β,
      executeAttempt m e p pl w = some (.authFailed, w₁) ∧
      w₁.cacheKeys = w.cacheKeys ∧ w₁.httpLog = w.httpLog ∧
      w₁.httpQueue = w.httpQueue ∧ w₁.authQueue = arest ∧
      w₁.authCalls = w.authCalls + 1 ∧ w₁.clock = w.clock + 1 ∧
      w₁.token = (if a.ok = false then w.token else none) := by
  have hauth := authenticate_run w a arest hA
  have hfalse : (a.ok && a.access_token.isSome) = false := by
    rcases hFail with h | h <;> simp [h]
  have htok2 : (if a.ok = false then w.token
        else a.access_token.map (fun x => Token.mk x a.token_type))
      = (if a.ok = false then w.token else none) := by
    rcases hFail with h | h <;> simp [h]
  rw [hfalse, htok2] at hauth
  exact ⟨{ w with
      authQueue := arest
      authCalls := w.authCalls + 1
      clock := w.clock + 1
      token := if a.ok = false then w.token else none },
    by simp [executeAttempt, hTok, hauth], rfl, rfl, rfl, rfl, rfl, rfl, rfl⟩

/-- `executeRetried` with a cached token: one dispatch; an ok response
returns its body, any failing response throws the descriptive HTTP error,
with no further dispatch. -/
theorem executeRetried_token {β : Type} (m : HTTP_METHOD) (e : String)
    (p : List (String × String)) (pl : Option String) (w : World β)
    (t : Token) (r : HttpResponse β) (rest : List (HttpResponse β))
    (hTok : w.token = some t) (hQ : w.httpQueue = r :: rest) :
    ∃ (k : CacheKey) (w₁ : World β),
      executeRetried m e p pl w = some
        ((if r.ok then Except.ok r.body
          else Except.error (.httpError r.url r.status r.statusText)), w₁) ∧
      k.method = m ∧ k.endpoint = e ∧ k.params = p ∧ k.payload = pl ∧
      w.clock ≤ k.date ∧ k.date ≤ w.clock + 100 ∧
      w₁.token = some t ∧ w₁.authQueue = w.authQueue ∧
      w₁.authCalls = w.authCalls ∧ w₁.httpQueue = rest ∧
      w₁.httpLog = w.httpLog ++ [⟨m, e, p, pl⟩] ∧
      w₁.cacheKeys = w.cacheKeys.filter (fun x => x ≠ k) ++ [k] ∧
      w₁.clock = k.date + 1 := by
  obtain ⟨k, w₁, ha, hkm, hke, hkp, hkpl, hkd, hkd2, ht, haq, hac, hhq, hhl,
    hck, hcl⟩ := executeAttempt_token m e p pl w t r rest hTok hQ
  refine ⟨k, w₁, ?_, hkm, hke, hkp, hkpl, hkd, hkd2, ht, haq, hac, hhq, hhl,
    hck, hcl⟩
  by_cases hok : r.ok <;> simp [executeRetried, ha, hok]

/-- Claim C1: for an `execute` call whose first dispatch returns status 401
with `is_retry = false`: if re-authentication succeeds, the identical request
(same method, endpoint, params, payload) is replayed exactly once and the
second response's parsed body is returned when that response is ok; if
re-authentication fails, or the retried dispatch itself fails (including a
second 401), `execute` throws the descriptive error carrying the resolved
URL, status code and status text, and never performs a third HTTP
dispatch. -/
theorem claim_C1_execute_401_retry {β : Type} (m : HTTP_METHOD) (e : String)
    (p : List (String × String)) (pl : Option String) (w : World β)
    (t : Token) (r₁ r₂ : HttpResponse β) (rest : List (HttpResponse β))
    (a : AuthResponse) (arest : List AuthResponse) (atok : String)
    (hTok : w.token = some t) (hQ : w.httpQueue = r₁ :: r₂ :: rest)
    (hA : w.authQueue = a :: arest)
    (h1ok : r₁.ok = false) (h1s : r₁.status = 401) :
    (a.ok = true → a.access_token = some atok → r₂.ok = true →
      ∃ w' : World β,
        execute m e p pl false w = some (.ok r₂.body, w') ∧
        w'.httpLog = w.httpLog ++ [⟨m, e, p, pl⟩, ⟨m, e, p, pl⟩] ∧
        w'.httpQueue = rest ∧ w'.authCalls = w.authCalls + 1) ∧
    (a.ok = true → a.access_token = some atok → r₂.ok = false →
      ∃ w' : World β,
        execute m e p pl false w =
          some (.error (.httpError r₂.url r₂.status r₂.statusText), w') ∧
        w'.httpLog = w.httpLog ++ [⟨m, e, p, pl⟩, ⟨m, e, p, pl⟩] ∧
        w'.httpQueue = rest ∧
        (ApiError.httpError r₂.url r₂.status r₂.statusText).message =
          r₂.url ++ " [" ++ toString r₂.status ++ "] " ++ r₂.statusText) ∧
    ((a.ok = false ∨ a.access_token = none) →
      ∃ w' : World β,
        execute m e p pl false w =
          some (.error (.httpError r₁.url r₁.status r₁.statusText), w') ∧
        w'.httpLog = w.httpLog ++ [⟨m, e, p, pl⟩] ∧
        w'.httpQueue = r₂ :: rest ∧
        (ApiError.httpError r₁.url r₁.status r₁.statusText).message =
          r₁.url ++ " [" ++ toString r₁.status ++ "] " ++ r₁.statusText) := by
  obtain ⟨k₁, w₁, ha1, _, _, _, _, _, _, ht₁, haq₁, hac₁, hhq₁, hhl₁, _, _⟩ :=
    executeAttempt_token m e p pl w t r₁ (r₂ :: rest) hTok hQ
  have hA₁ : w₁.authQueue = a :: arest := haq₁.trans hA
  refine ⟨?_, ?_, ?_⟩
  · intro haok hat h2ok
    have hauth : authenticate w₁ = some (true,
        { w₁ with
            authQueue := arest
            authCalls := w₁.authCalls + 1
            clock := w₁.clock + 1
            token := some ⟨atok, a.token_type⟩ }) := by
      simpa [haok, hat] using authenticate_run w₁ a arest hA₁
    obtain ⟨k₃, w₃, hr, _, _, _, _, _, _, _, _, hac₃, hhq₃, hhl₃, _, _⟩ :=
      executeRetried_token m e p pl
      { w₁ with
          authQueue := arest
          authCalls := w₁.authCalls + 1
          clock := w₁.clock + 1
          token := some ⟨atok, a.token_type⟩ }
      ⟨atok, a.token_type⟩ r₂ rest rfl hhq₁
    rw [if_pos h2ok] at hr
    refine ⟨w₃, ?_, ?_, hhq₃, ?_⟩
    · simp [execute, ha1, h1ok, h1s, hauth, hr]
    · rw [hhl₃]
      simp [hhl₁]
    · rw [hac₃]
      simp [hac₁]
  · intro haok hat h2ok
    have hauth : authenticate w₁ = some (true,
        { w₁ with
            authQueue := arest
            authCalls := w₁.authCalls + 1
            clock := w₁.clock + 1
            token := some ⟨atok, a.token_type⟩ }) := by
      simpa [haok, hat] using authenticate_run w₁ a arest hA₁
    obtain ⟨k₃, w₃, hr, _, _, _, _, _, _, _, _, _, hhq₃, hhl₃, _, _⟩ :=
      executeRetried_token m e p pl
      { w₁ with
          authQueue := arest
          authCalls := w₁.authCalls + 1
          clock := w₁.clock + 1
          token := some ⟨atok, a.token_type⟩ }
      ⟨atok, a.token_type⟩ r₂ rest rfl hhq₁
    rw [if_neg (by simp [h2ok])] at hr
    refine ⟨w₃, ?_, ?_, hhq₃, rfl⟩
    · simp [execute, ha1, h1ok, h1s, hauth, hr]
    · rw [hhl₃]
      simp [hhl₁]
  · intro hFail
    have hfalse : (a.ok && a.access_token.isSome) = false := by
      rcases hFail with h | h <;> simp [h]
    have hauth := authenticate_run w₁ a arest hA₁
    rw [hfalse] at hauth
    exact ⟨{ w₁ with
        token := if a.ok = false then w₁.token
                 else a.access_token.map (fun x => Token.mk x a.token_type)
        authQueue := arest
        authCalls := w₁.authCalls + 1
        clock := w₁.clock + 1 },
      by simp [execute, ha1, h1ok, h1s, hauth], by simpa using hhl₁,
      by simpa using hhq₁, rfl⟩

/-- Claim C1 witness: a concrete 401-then-200 run returning the second
body after exactly two dispatches of the identical request. -/
theorem claim_C1_execute_401_retry_witness :
    ∃ w' : World Nat,
      execute .GET "/enterprise" [] none false
        { token := some ⟨"tok", "Bearer"⟩, cacheKeys := [], clock := 0,
          authQueue := [⟨true, some "tok2", "Bearer"⟩],
          httpQueue := [⟨false, 401, "Unauthorized", "https://u", 0⟩,
                        ⟨true, 200, "OK", "https://u", 42⟩],
          httpLog := [], authCalls := 0 } = some (.ok 42, w') ∧
      w'.httpLog = [⟨.GET, "/enterprise", [], none⟩,
                    ⟨.GET, "/enterprise", [], none⟩] ∧
      w'.httpQueue = [] ∧ w'.authCalls = 1 := by
  obtain ⟨w', h1, h2, h3, h4⟩ :=
    (claim_C1_execute_401_retry .GET "/enterprise" [] none
      { token := some ⟨"tok", "Bearer"⟩, cacheKeys := [], clock := 0,
        authQueue := [⟨true, some "tok2", "Bearer"⟩],
        httpQueue := [⟨false, 401, "Unauthorized", "https://u", 0⟩,
                      ⟨true, 200, "OK", "https://u", 42⟩],
        httpLog := [], authCalls := 0 }
      ⟨"tok", "Bearer"⟩ ⟨false, 401, "Unauthorized", "https://u", 0⟩
      ⟨true, 200, "OK", "https://u", 42⟩ []
      ⟨true, some "tok2", "Bearer"⟩ [] "tok2"
      rfl rfl rfl rfl rfl).1 rfl rfl rfl
  exact ⟨w', h1, by simpa using h2, h3, h4⟩

/-- Claim C4 counterexample: a run of `authenticate` where the HTTP response
is not ok (a failure), yet the previously cached token is NOT cleared — the
token slot still holds the old token after `authenticate` returns false,
contradicting the claim that any failure clears the cached token. -/
theorem claim_C4_counterexample :
    (authenticate (β := Unit)
        { token := some ⟨"cached", "Bearer"⟩, cacheKeys := [], clock := 0,
          authQueue := [⟨false, none, "Bearer"⟩], httpQueue := [],
          httpLog := [], authCalls := 0 }).map (fun x => (x.1, x.2.token))
      = some (false, some ⟨"cached", "Bearer"⟩) := rfl

/-- Claim C4 (amended): `authenticate` caches the token and returns true if
and only if the HTTP response is OK and the body contains an access token;
on an OK response missing the access token field it clears any cached token
and returns false; on a non-OK response it returns false leaving the cached
token unchanged (it does not clear it). -/
theorem claim_C4_authenticate_amended {β : Type} (w : World β)
    (r : AuthResponse) (rest : List AuthResponse)
    (hQ : w.authQueue = r :: rest) :
    ∃ w' : World β,
      authenticate w = some ((r.ok && r.access_token.isSome), w') ∧
      (∀ atok : String, r.ok = true → r.access_token = some atok →
        w'.token = some ⟨atok, r.token_type⟩) ∧
      (r.ok = true → r.access_token = none → w'.token = none) ∧
      (r.ok = false → w'.token = w.token) := by
  refine ⟨{ w with
      authQueue := rest
      authCalls := w.authCalls + 1
      clock := w.clock + 1
      token := if r.ok = false then w.token
               else r.access_token.map (fun a => ⟨a, r.token_type⟩) },
    authenticate_run w r rest hQ, ?_, ?_, ?_⟩
  · intro atok hok hat
    simp [hok, hat]
  · intro hok hat
    simp [hok, hat]
  · intro hok
    simp [hok]

/-- Claim C4 witness: a concrete successful exchange caches the token and
returns true. -/
theorem claim_C4_authenticate_amended_witness :
    ∃ w' : World Unit,
      authenticate
        { token := none, cacheKeys := [], clock := 0,
          authQueue := [⟨true, some "fresh", "Bearer"⟩], httpQueue := [],
          httpLog := [], authCalls := 0 } = some (true, w') ∧
      w'.token = some ⟨"fresh", "Bearer"⟩ := by
  obtain ⟨w', h1, h2, _, _⟩ := claim_C4_authenticate_amended (β := Unit)
    { token := none, cacheKeys := [], clock := 0,
      authQueue := [⟨true, some "fresh", "Bearer"⟩], httpQueue := [],
      httpLog := [], authCalls := 0 } ⟨true, some "fresh", "Bearer"⟩ [] rfl
  exact ⟨w', by simpa using h1, h2 "fresh" rfl rfl⟩

/-- Claim C5: when no cached token exists and authentication fails,
`execute` throws the authentication error ("Could not authenticate with
API") immediately — no rate-window entry is recorded and no HTTP call is
performed; conversely, when a cached token exists, `execute` proceeds
without invoking authentication pre-flight (auth oracle and counter
untouched on an ok response). -/
theorem claim_C5_execute_preflight {β : Type} (m : HTTP_METHOD) (e : String)
    (p : List (String × String)) (pl : Option String) (w : World β)
    (a : AuthResponse) (arest : List AuthResponse) (t : Token)
    (r : HttpResponse β) (rest : List (HttpResponse β)) (is_retry : Bool) :
    (w.token = none → w.authQueue = a :: arest →
      (a.ok = false ∨ a.access_token = none) →
      ∃ w' : World β,
        execute m e p pl is_retry w = some (.error .authError, w') ∧
        w'.cacheKeys = w.cacheKeys ∧ w'.httpLog = w.httpLog ∧
        w'.httpQueue = w.httpQueue ∧
        ApiError.authError.message = "Could not authenticate with API") ∧
    (w.token = some t → w.httpQueue = r :: rest → r.ok = true →
      ∃ w' : World β,
        execute m e p pl is_retry w = some (.ok r.body, w') ∧
        w'.authCalls = w.authCalls ∧ w'.authQueue = w.authQueue) := by
  constructor
  · intro hTok hA hFail
    obtain ⟨w₁, hatt, hck, hhl, hhq, _, _, _, _⟩ :=
      executeAttempt_authFail m e p pl w a arest hTok hA hFail
    exact ⟨w₁, by simp [execute, hatt], hck, hhl, hhq, rfl⟩
  · intro hTok hQ hok
    obtain ⟨k, w₁, hatt, _, _, _, _, _, _, _, haq, hac, _, _, _, _⟩ :=
      executeAttempt_token m e p pl w t r rest hTok hQ
    exact ⟨w₁, by simp [execute, hatt, hok], hac, haq⟩

/-- Claim C5 witness: a concrete auth-failing run throws the authentication
error without any dispatch, and a concrete cached-token run succeeds without
consuming the auth oracle. -/
theorem claim_C5_execute_preflight_witness :
    (∃ w' : World Unit,
      execute .GET "/x" [] none false
        { token := none, cacheKeys := [], clock := 0,
          authQueue := [⟨false, none, "Bearer"⟩], httpQueue := [],
          httpLog := [], authCalls := 0 } =
        some (.error .authError, w') ∧
      w'.cacheKeys = [] ∧ w'.httpLog = [] ∧ w'.httpQueue = [] ∧
      ApiError.authError.message = "Could not authenticate with API") ∧
    (∃ w' : World Unit,
      execute .GET "/x" [] none false
        { token := some ⟨"t", "Bearer"⟩, cacheKeys := [], clock := 0,
          authQueue := [], httpQueue := [⟨true, 200, "OK", "https://u", ()⟩],
          httpLog := [], authCalls := 0 } = some (.ok (), w') ∧
      w'.authCalls = 0 ∧ w'.authQueue = []) := by
  exact ⟨(claim_C5_execute_preflight .GET "/x" [] none
      { token := none, cacheKeys := [], clock := 0,
        authQueue := [⟨false, none, "Bearer"⟩], httpQueue := [],
        httpLog := [], authCalls := 0 }
      ⟨false, none, "Bearer"⟩ [] ⟨"t", "Bearer"⟩
      ⟨true, 200, "OK", "https://u", ()⟩ [] false).1 rfl rfl (Or.inl rfl),
    (claim_C5_execute_preflight .GET "/x" [] none
      { token := some ⟨"t", "Bearer"⟩, cacheKeys := [], clock := 0,
        authQueue := [], httpQueue := [⟨true, 200, "OK", "https://u", ()⟩],
        httpLog := [], authCalls := 0 }
      ⟨false, none, "Bearer"⟩ [] ⟨"t", "Bearer"⟩
      ⟨true, 200, "OK", "https://u", ()⟩ [] false).2 rfl rfl rfl⟩

/-- Keys whose dates all lie strictly below a bound are unequal to a key at
or above the bound, so the overwrite filter of `recordRequest` removes
nothing. -/
theorem filter_ne_of_dates {l : List CacheKey} {c : Nat} (k : CacheKey)
    (hInv : ∀ x ∈ l, x.date < c) (hk : c ≤ k.date) :
    l.filter (fun x => x ≠ k) = l := by
  apply List.filter_eq_self.mpr
  intro x hx
  have hd := hInv x hx
  have hne : x ≠ k := fun he => by
    rw [he] at hd
    omega
  simpa using hne

/-- Claim C6: every `execute` invocation that passes the pre-flight
authentication check inserts exactly one rate-window entry, keyed by method,
endpoint, params, payload and timestamp, before dispatching — the entry is
present and counted by `requestCount` even when the HTTP response is a
failure and `execute` ends in a thrown error; a 401-triggered retry inserts
a second entry for the replayed request.  (Stated under the clock invariant
that all existing keys are dated before the current clock, which every run
preserves.) -/
theorem claim_C6_rate_window_insert {β : Type} (m : HTTP_METHOD) (e : String)
    (p : List (String × String)) (pl : Option String) (w : World β)
    (t : Token) (r r₂ : HttpResponse β) (rest : List (HttpResponse β))
    (a : AuthResponse) (arest : List AuthResponse) (atok : String)
    (is_retry : Bool)
    (hInv : ∀ x ∈ w.cacheKeys, x.date < w.clock)
    (hTok : w.token = some t) :
    (w.httpQueue = r :: rest →
      (is_retry = true ∨ r.ok = true ∨ r.status ≠ 401) →
      ∃ (out : Except ApiError β) (w' : World β) (k : CacheKey),
        execute m e p pl is_retry w = some (out, w') ∧
        w'.cacheKeys = w.cacheKeys ++ [k] ∧
        k.method = m ∧ k.endpoint = e ∧ k.params = p ∧ k.payload = pl ∧
        w'.clock < k.date + cacheTTL ∧
        1 ≤ requestCount w') ∧
    (w.httpQueue = r :: r₂ :: rest → r.ok = false → r.status = 401 →
      w.authQueue = a :: arest → a.ok = true → a.access_token = some atok →
      ∃ (out : Except ApiError β) (w' : World β) (k₁ k₂ : CacheKey),
        execute m e p pl false w = some (out, w') ∧
        w'.cacheKeys = w.cacheKeys ++ [k₁, k₂] ∧
        k₁.method = m ∧ k₁.endpoint = e ∧ k₁.params = p ∧ k₁.payload = pl ∧
        k₂.method = m ∧ k₂.endpoint = e ∧ k₂.params = p ∧ k₂.payload = pl ∧
        k₁.date < k₂.date ∧
        w'.clock < k₁.date + cacheTTL ∧ w'.clock < k₂.date + cacheTTL ∧
        2 ≤ requestCount w') := by
  constructor
  · intro hQ hCase
    obtain ⟨k, w₁, hatt, hkm, hke, hkp, hkpl, hkd, hkd2, ht, haq, hac, hhq,
      hhl, hck, hcl⟩ := executeAttempt_token m e p pl w t r rest hTok hQ
    have hck' : w₁.cacheKeys = w.cacheKeys ++ [k] := by
      rw [hck, filter_ne_of_dates k hInv hkd]
    have hfresh : w₁.clock < k.date + cacheTTL := by
      rw [hcl]
      simp [cacheTTL]
    have hcount : 1 ≤ requestCount w₁ := by
      have hkmem : k ∈ w₁.cacheKeys := by
        rw [hck']
        simp
      have hmem : k ∈ w₁.cacheKeys.filter
          (fun x => w₁.clock < x.date + cacheTTL) :=
        List.mem_filter.mpr ⟨hkmem, by simpa using hfresh⟩
      exact List.length_pos_of_mem hmem
    by_cases hok : r.ok
    · exact ⟨.ok r.body, w₁, k, by simp [execute, hatt, hok], hck', hkm, hke,
        hkp, hkpl, hfresh, hcount⟩
    · have hok' : r.ok = false := by simpa using hok
      rcases hCase with hretry | hok2 | hst
      · exact ⟨.error (.httpError r.url r.status r.statusText), w₁, k,
          by simp [execute, hatt, hok', hretry], hck', hkm, hke, hkp, hkpl,
          hfresh, hcount⟩
      · exact absurd hok2 hok
      · exact ⟨.error (.httpError r.url r.status r.statusText), w₁, k,
          by simp [execute, hatt, hok', hst], hck', hkm, hke, hkp, hkpl,
          hfresh, hcount⟩
  · intro hQ h1ok h1s hA haok hat
    obtain ⟨k₁, w₁, hatt, hkm₁, hke₁, hkp₁, hkpl₁, hkd₁, hkd₁b, ht₁, haq₁,
      hac₁, hhq₁, hhl₁, hck₁, hcl₁⟩ :=
      executeAttempt_token m e p pl w t r (r₂ :: rest) hTok hQ
    have hck₁' : w₁.cacheKeys = w.cacheKeys ++ [k₁] := by
      rw [hck₁, filter_ne_of_dates k₁ hInv hkd₁]
    have hA₁ : w₁.authQueue = a :: arest := haq₁.trans hA
    have hauth : authenticate w₁ = some (true,
        { w₁ with
            authQueue := arest
            authCalls := w₁.authCalls + 1
            clock := w₁.clock + 1
            token := some ⟨atok, a.token_type⟩ }) := by
      simpa [haok, hat] using authenticate_run w₁ a arest hA₁
    obtain ⟨k₂, w₃, hr, hkm₂, hke₂, hkp₂, hkpl₂, hkd₂, hkd₂b, ht₃, haq₃,
      hac₃, hhq₃, hhl₃, hck₃, hcl₃⟩ :=
      executeRetried_token m e p pl
        { w₁ with
            authQueue := arest
            authCalls := w₁.authCalls + 1
            clock := w₁.clock + 1
            token := some ⟨atok, a.token_type⟩ }
        ⟨atok, a.token_type⟩ r₂ rest rfl hhq₁
    have hkd₂' : w₁.clock + 1 ≤ k₂.date := by simpa using hkd₂
    have hkd₂b' : k₂.date ≤ w₁.clock + 1 + 100 := by simpa using hkd₂b
    have hInv₁ : ∀ x ∈ w₁.cacheKeys, x.date < w₁.clock + 1 := by
      intro x hx
      rw [hck₁'] at hx
      rcases List.mem_append.mp hx with hx | hx
      · have := hInv x hx
        omega
      · have : x = k₁ := by simpa using hx
        rw [this]
        omega
    have hck₃' : w₃.cacheKeys = w.cacheKeys ++ [k₁, k₂] := by
      rw [hck₃]
      have : ({ w₁ with
          authQueue := arest
          authCalls := w₁.authCalls + 1
          clock := w₁.clock + 1
          token := some ⟨atok, a.token_type⟩ } : World β).cacheKeys.filter
            (fun x => x ≠ k₂)
          = w₁.cacheKeys := by
        exact filter_ne_of_dates k₂ hInv₁ hkd₂'
      rw [this, hck₁']
      simp
    have hd12 : k₁.date < k₂.date := by omega
    have hfresh₂ : w₃.clock < k₂.date + cacheTTL := by
      rw [hcl₃]
      simp [cacheTTL]
    have hfresh₁ : w₃.clock < k₁.date + cacheTTL := by
      rw [hcl₃]
      simp only [cacheTTL]
      omega
    have hcount : 2 ≤ requestCount w₃ := by
      unfold requestCount
      rw [hck₃', List.filter_append]
      have h2 : [k₁, k₂].filter (fun x => w₃.clock < x.date + cacheTTL)
          = [k₁, k₂] := by
        simp [List.filter, hfresh₁, hfresh₂]
      rw [h2]
      simp
    refine ⟨(if r₂.ok then Except.ok r₂.body
        else Except.error (.httpError r₂.url r₂.status r₂.statusText)),
      w₃, k₁, k₂, ?_, hck₃', hkm₁, hke₁, hkp₁, hkpl₁, hkm₂, hke₂, hkp₂,
      hkpl₂, hd12, hfresh₁, hfresh₂, hcount⟩
    simp [execute, hatt, h1ok, h1s, hauth, hr]

/-- Claim C6 witness: a concrete failing (HTTP 500) call still leaves its
rate-window entry behind, counted by `requestCount`. -/
theorem claim_C6_rate_window_insert_witness :
    ∃ (out : Except ApiError Unit) (w' : World Unit) (k : CacheKey),
      execute .GET "/x" [] none false
        { token := some ⟨"t", "Bearer"⟩, cacheKeys := [], clock := 0,
          authQueue := [],
          httpQueue := [⟨false, 500, "Server Error", "https://u", ()⟩],
          httpLog := [], authCalls := 0 } = some (out, w') ∧
      w'.cacheKeys = [k] ∧
      k.method = .GET ∧ k.endpoint = "/x" ∧ k.params = [] ∧
      k.payload = none ∧ w'.clock < k.date + cacheTTL ∧
      1 ≤ requestCount w' := by
  obtain ⟨out, w', k, h1, h2, h3, h4, h5, h6, h7, h8⟩ :=
    (claim_C6_rate_window_insert .GET "/x" [] none
      { token := some ⟨"t", "Bearer"⟩, cacheKeys := [], clock := 0,
        authQueue := [],
        httpQueue := [⟨false, 500, "Server Error", "https://u", ()⟩],
        httpLog := [], authCalls := 0 }
      ⟨"t", "Bearer"⟩ ⟨false, 500, "Server Error", "https://u", ()⟩
      ⟨false, 500, "Server Error", "https://u", ()⟩ []
      ⟨false, none, "Bearer"⟩ [] "" false (by simp) rfl).1 rfl
      (Or.inr (Or.inr (by decide)))
  exact ⟨out, w', k, h1, by simpa using h2, h3, h4, h5, h6, h7, h8⟩

/-- Soundness of the fetch-all loop: a successful aggregation from start
index `s` consumed some positive number `n` of queued pages, issued exactly
the requests `s, s+1, ..., s+n-1` (each with the fixed page size) in order,
returned the pages' mapped results concatenated in page order, and stopped
at the first page reporting `isLastPage`. -/
theorem fetchAllLoop_sound {α γ : Type} (ps : Nat) (f : α → γ) :
    ∀ (pages : List (PageEnvelope α)) (s : Nat) (acc : List γ)
      (log : List PageRequest) (res : List γ) (last : PageEnvelope α)
      (log' : List PageRequest),
      fetchAllLoop ps f s pages acc log = some (res, last, log') →
      ∃ n, 1 ≤ n ∧ n ≤ pages.length ∧
        log' = log ++ (List.range' s n).map (fun i => ⟨i, ps⟩) ∧
        res = acc
          ++ ((pages.take n).map (fun pg => pg.results.map f)).flatten ∧
        pages[n - 1]? = some last ∧ last.isLastPage = true ∧
        (∀ i pg, i + 1 < n → pages[i]? = some pg →
          pg.isLastPage = false) := by
  intro pages
  induction pages with
  | nil =>
    intro s acc log res last log' h
    simp [fetchAllLoop] at h
  | cons pg rest ih =>
    intro s acc log res last log' h
    by_cases hlast : pg.isLastPage
    · simp [fetchAllLoop, hlast] at h
      obtain ⟨h1, h2, h3⟩ := h
      refine ⟨1, le_refl 1, by simp, ?_, ?_, ?_, ?_, ?_⟩
      · rw [← h3]
        simp [List.range'_one]
      · rw [← h1]
        simp
      · simp [← h2]
      · rw [← h2]
        exact hlast
      · intro i pg' hi
        omega
    · simp only [Bool.not_eq_true] at hlast
      simp [fetchAllLoop, hlast] at h
      obtain ⟨n, hn1, hn2, hlog, hres, hget, hlp, hprev⟩ :=
        ih (s + 1) (acc ++ pg.results.map f) (log ++ [⟨s, ps⟩]) res last
          log' h
      refine ⟨n + 1, by omega, by simp; omega, ?_, ?_, ?_, hlp, ?_⟩
      · rw [hlog, List.range'_succ]
        simp
      · rw [hres]
        simp
      · rcases n with _ | m
        · omega
        · simpa [List.getElem?_cons_succ] using hget
      · intro i pg' hi hgidx
        rcases i with _ | j
        · simp at hgidx
          rw [← hgidx]
          exact hlast
        · exact hprev j pg' (by omega) (by simpa using hgidx)

/-- The fetch-all loop started at page 0 with empty accumulators, restated
through the log length: requests are pages 0,1,...,len-1 each with the fixed
page size, results are the consumed pages' mapped results in page order, and
the last consumed page is the first to report `isLastPage`. -/
theorem fetchAll_log_spec {α γ : Type} (ps : Nat) (f : α → γ)
    (pages : List (PageEnvelope α)) (res : List γ) (last : PageEnvelope α)
    (lg : List PageRequest)
    (hloop : fetchAllLoop ps f 0 pages [] [] = some (res, last, lg)) :
    1 ≤ lg.length ∧ lg.length ≤ pages.length ∧
    lg = (List.range lg.length).map (fun i => ⟨i, ps⟩) ∧
    pages[lg.length - 1]? = some last ∧ last.isLastPage = true ∧
    (∀ i pg, i + 1 < lg.length → pages[i]? = some pg →
      pg.isLastPage = false) ∧
    res = ((pages.take lg.length).map (fun pg => pg.results.map f)).flatten
    := by
  obtain ⟨n, hn1, hn2, hlog, hres, hget, hlp, hprev⟩ :=
    fetchAllLoop_sound ps f pages 0 [] [] res last lg hloop
  simp only [List.nil_append] at hlog hres
  have hlen : lg.length = n := by
    rw [hlog]
    simp
  rw [hlen]
  exact ⟨hn1, hn2, by rw [List.range_eq_range']; exact hlog, hget,
    hlp, hprev, hres⟩

/-- Claim C2: in fetch-all mode, once the page loop has terminated, the
concatenated results are returned exactly when their length equals the final
page's totalCount; on any mismatch the method instead throws the
aggregation-integrity error whose message is "Could not fetch all results"
(shown for `fetch_addresses` and `fetch_user_terminals`). -/
theorem claim_C2_fetch_all_total_count {α γ : Type} (options : FetchOptions)
    (pages : List (PageEnvelope α)) (transform : α → γ) (res : List α)
    (resU : List γ) (last lastU : PageEnvelope α) (log logU : List PageRequest)
    (hall : options.all = true) :
    (fetchAllLoop 100 (fun x => x) 0 pages [] [] = some (res, last, log) →
      ((res.length = last.totalCount →
        fetch_addresses options pages = some (.ok res, log)) ∧
       (res.length ≠ last.totalCount →
        fetch_addresses options pages = some (.error .aggregation, log)))) ∧
    (fetchAllLoop 100 transform 0 pages [] [] = some (resU, lastU, logU) →
      ((resU.length = lastU.totalCount →
        fetch_user_terminals transform options pages =
          some (.ok resU, logU)) ∧
       (resU.length ≠ lastU.totalCount →
        fetch_user_terminals transform options pages =
          some (.error .aggregation, logU)))) ∧
    FetchError.aggregation.message = "Could not fetch all results" := by
  refine ⟨?_, ?_, rfl⟩
  · intro hloop
    constructor
    · intro heq
      simp [fetch_addresses, hall, hloop, heq]
    · intro hne
      simp [fetch_addresses, hall, hloop, hne]
  · intro hloop
    constructor
    · intro heq
      simp [fetch_user_terminals, hall, hloop, heq]
    · intro hne
      simp [fetch_user_terminals, hall, hloop, hne]

/-- Claim C2 witness: a two-page aggregation returning both results when the
count matches, and throwing the aggregation error when the reported
totalCount (5) differs from the 2 returned rows. -/
theorem claim_C2_fetch_all_total_count_witness :
    fetch_addresses (α := Nat) ⟨50, 0, true⟩
      [⟨2, 0, 100, false, [10]⟩, ⟨2, 1, 100, true, [20]⟩] =
      some (.ok [10, 20], [⟨0, 100⟩, ⟨1, 100⟩]) ∧
    fetch_addresses (α := Nat) ⟨50, 0, true⟩
      [⟨5, 0, 100, false, [10]⟩, ⟨5, 1, 100, true, [20]⟩] =
      some (.error .aggregation, [⟨0, 100⟩, ⟨1, 100⟩]) := by
  constructor
  · exact ((claim_C2_fetch_all_total_count (γ := Nat) ⟨50, 0, true⟩
      [⟨2, 0, 100, false, [10]⟩, ⟨2, 1, 100, true, [20]⟩] (fun x => x)
      [10, 20] [] ⟨2, 1, 100, true, [20]⟩ ⟨2, 1, 100, true, [20]⟩
      [⟨0, 100⟩, ⟨1, 100⟩] [] rfl).1 rfl).1 rfl
  · exact ((claim_C2_fetch_all_total_count (γ := Nat) ⟨50, 0, true⟩
      [⟨5, 0, 100, false, [10]⟩, ⟨5, 1, 100, true, [20]⟩] (fun x => x)
      [10, 20] [] ⟨5, 1, 100, true, [20]⟩ ⟨5, 1, 100, true, [20]⟩
      [⟨0, 100⟩, ⟨1, 100⟩] [] rfl).1 rfl).2 (by decide)

/-- Claim C7: with `options.all = false`, exactly one page request is
issued, carrying the caller-supplied page index and limit, and that single
page's raw results (mapped to domain objects where applicable) are returned
unmodified regardless of the response's `isLastPage` and with no totalCount
check (shown for `fetch_addresses` and `fetch_subscriptions`; `pg` is
arbitrary, so the result is independent of `pg.isLastPage` and
`pg.totalCount`). -/
theorem claim_C7_single_page {α γ : Type} (options : FetchOptions)
    (pages : List (PageEnvelope α)) (pg : PageEnvelope α)
    (rest : List (PageEnvelope α)) (transform : α → γ)
    (hall : options.all = false) (hpages : pages = pg :: rest) :
    fetch_addresses options pages =
      some (.ok pg.results, [⟨options.page, options.limit⟩]) ∧
    fetch_subscriptions transform options pages =
      some (.ok (pg.results.map transform),
        [⟨options.page, options.limit⟩]) := by
  constructor
  · simp [fetch_addresses, hall, hpages]
  · simp [fetch_subscriptions, hall, hpages]

/-- Claim C7 witness: the spec's example — page 2, limit 10, one request,
raw results returned although `isLastPage` is false and totalCount is
wrong. -/
theorem claim_C7_single_page_witness :
    fetch_addresses (α := Nat) ⟨10, 2, false⟩
      [⟨999, 2, 10, false, [7, 8]⟩] = some (.ok [7, 8], [⟨2, 10⟩]) ∧
    fetch_subscriptions (fun x => x + 1) ⟨10, 2, false⟩
      [⟨999, 2, 10, false, [7, 8]⟩] = some (.ok [8, 9], [⟨2, 10⟩]) := by
  have h := claim_C7_single_page ⟨10, 2, false⟩
    [⟨999, 2, 10, false, [7, 8]⟩] ⟨999, 2, 10, false, [7, 8]⟩ []
    (fun x => x + 1) rfl rfl
  exact ⟨h.1, h.2⟩

/-- Inversion of `fetch_addresses` in all mode: any completed run came from
a terminated loop whose log is the returned log. -/
theorem fetch_addresses_all_inv {α : Type} (options : FetchOptions)
    (pages : List (PageEnvelope α)) (out : Except FetchError (List α))
    (log : List PageRequest) (hall : options.all = true)
    (h : fetch_addresses options pages = some (out, log)) :
    ∃ res last,
      fetchAllLoop 100 (fun x => x) 0 pages [] [] = some (res, last, log) ∧
      ((out = .ok res ∧ res.length = last.totalCount) ∨
       (out = .error .aggregation ∧ res.length ≠ last.totalCount)) := by
  rcases hloop : fetchAllLoop 100 (fun x => x) 0 pages [] [] with
    _ | ⟨res, last, lg⟩
  · simp [fetch_addresses, hall, hloop] at h
  · by_cases hc : res.length = last.totalCount
    · have h' : some (Except.ok res, lg) = some (out, log) := by
        rw [← h]
        simp [fetch_addresses, hall, hloop, hc]
      rw [Option.some.injEq, Prod.mk.injEq] at h'
      obtain ⟨h1, h2⟩ := h'
      subst h2
      exact ⟨res, last, rfl, Or.inl ⟨h1.symm, hc⟩⟩
    · have h' : some (Except.error FetchError.aggregation, lg)
          = some (out, log) := by
        rw [← h]
        simp [fetch_addresses, hall, hloop, hc]
      rw [Option.some.injEq, Prod.mk.injEq] at h'
      obtain ⟨h1, h2⟩ := h'
      subst h2
      exact ⟨res, last, rfl, Or.inr ⟨h1.symm, hc⟩⟩

/-- Inversion of `fetch_subscriptions` in all mode. -/
theorem fetch_subscriptions_all_inv {α γ : Type} (transform : α → γ)
    (options : FetchOptions) (pages : List (PageEnvelope α))
    (out : Except FetchError (List γ)) (log : List PageRequest)
    (hall : options.all = true)
    (h : fetch_subscriptions transform options pages = some (out, log)) :
    ∃ res last,
      fetchAllLoop 50 transform 0 pages [] [] = some (res, last, log) ∧
      ((out = .ok res ∧ res.length = last.totalCount) ∨
       (out = .error .aggregation ∧ res.length ≠ last.totalCount)) := by
  rcases hloop : fetchAllLoop 50 transform 0 pages [] [] with
    _ | ⟨res, last, lg⟩
  · simp [fetch_subscriptions, hall, hloop] at h
  · by_cases hc : res.length = last.totalCount
    · have h' : some (Except.ok res, lg) = some (out, log) := by
        rw [← h]
        simp [fetch_subscriptions, hall, hloop, hc]
      rw [Option.some.injEq, Prod.mk.injEq] at h'
      obtain ⟨h1, h2⟩ := h'
      subst h2
      exact ⟨res, last, rfl, Or.inl ⟨h1.symm, hc⟩⟩
    · have h' : some (Except.error FetchError.aggregation, lg)
          = some (out, log) := by
        rw [← h]
        simp [fetch_subscriptions, hall, hloop, hc]
      rw [Option.some.injEq, Prod.mk.injEq] at h'
      obtain ⟨h1, h2⟩ := h'
      subst h2
      exact ⟨res, last, rfl, Or.inr ⟨h1.symm, hc⟩⟩

/-- Claim C3: in fetch-all mode, page requests start at index 0 and are
issued one at a time in strictly increasing order (the log is exactly
`0, 1, ..., len-1`), each carrying the endpoint's fixed internal page size
(100 for addresses, 50 for subscriptions) regardless of the caller-supplied
limit; the loop stops at the first page reporting `isLastPage`, and the
returned results are the consumed pages' results concatenated in page
order. -/
theorem claim_C3_fetch_all_pagination {α γ : Type} (options : FetchOptions)
    (pages : List (PageEnvelope α)) (transform : α → γ)
    (out : Except FetchError (List α)) (outS : Except FetchError (List γ))
    (log logS : List PageRequest) (hall : options.all = true) :
    (fetch_addresses options pages = some (out, log) →
      1 ≤ log.length ∧ log.length ≤ pages.length ∧
      log = (List.range log.length).map (fun i => ⟨i, 100⟩) ∧
      (∃ lastpg, pages[log.length - 1]? = some lastpg ∧
        lastpg.isLastPage = true) ∧
      (∀ i pg, i + 1 < log.length → pages[i]? = some pg →
        pg.isLastPage = false) ∧
      (∀ r, out = .ok r →
        r = ((pages.take log.length).map (fun pg => pg.results)).flatten)) ∧
    (fetch_subscriptions transform options pages = some (outS, logS) →
      1 ≤ logS.length ∧ logS.length ≤ pages.length ∧
      logS = (List.range logS.length).map (fun i => ⟨i, 50⟩) ∧
      (∃ lastpg, pages[logS.length - 1]? = some lastpg ∧
        lastpg.isLastPage = true) ∧
      (∀ i pg, i + 1 < logS.length → pages[i]? = some pg →
        pg.isLastPage = false) ∧
      (∀ r, outS = .ok r →
        r = ((pages.take logS.length).map
          (fun pg => pg.results.map transform)).flatten)) := by
  constructor
  · intro hFA
    obtain ⟨res, last, hloop, hout⟩ :=
      fetch_addresses_all_inv options pages out log hall hFA
    obtain ⟨h1, h2, h3, h4, h5, h6, h7⟩ :=
      fetchAll_log_spec 100 (fun x => x) pages res last log hloop
    refine ⟨h1, h2, h3, ⟨last, h4, h5⟩, h6, ?_⟩
    intro r hr
    rcases hout with ⟨ho, _⟩ | ⟨ho, _⟩
    · have hres : res = r := by
        have := ho.symm.trans hr
        exact Except.ok.inj this
      simp only [List.map_id'] at h7
      rw [← hres, h7]
    · rw [ho] at hr
      simp at hr
  · intro hFS
    obtain ⟨res, last, hloop, hout⟩ :=
      fetch_subscriptions_all_inv transform options pages outS logS hall hFS
    obtain ⟨h1, h2, h3, h4, h5, h6, h7⟩ :=
      fetchAll_log_spec 50 transform pages res last logS hloop
    refine ⟨h1, h2, h3, ⟨last, h4, h5⟩, h6, ?_⟩
    intro r hr
    rcases hout with ⟨ho, _⟩ | ⟨ho, _⟩
    · have hres : res = r := by
        have := ho.symm.trans hr
        exact Except.ok.inj this
      rw [← hres, h7]
    · rw [ho] at hr
      simp at hr

/-- Claim C3 witness: the three-page aggregation (sizes 2/2/1,
totalCount 5) issues requests 0,1,2 with limit 100 although the caller's
limit was 50, and returns the five results in page order. -/
theorem claim_C3_fetch_all_pagination_witness :
    ([(⟨0, 100⟩ : PageRequest), ⟨1, 100⟩, ⟨2, 100⟩].length ≤
      [(⟨5, 0, 100, false, [1, 2]⟩ : PageEnvelope Nat),
       ⟨5, 1, 100, false, [3, 4]⟩, ⟨5, 2, 100, true, [5]⟩].length) ∧
    ([(⟨0, 100⟩ : PageRequest), ⟨1, 100⟩, ⟨2, 100⟩] =
      (List.range 3).map (fun i => ⟨i, 100⟩)) ∧
    (∀ r, (Except.ok [1, 2, 3, 4, 5] : Except FetchError (List Nat)) =
      .ok r → r = [1, 2, 3, 4, 5]) := by
  obtain ⟨h1, h2, h3, h4, h5, h6⟩ := (claim_C3_fetch_all_pagination
    (γ := Nat) ⟨50, 0, true⟩
    [⟨5, 0, 100, false, [1, 2]⟩, ⟨5, 1, 100, false, [3, 4]⟩,
     ⟨5, 2, 100, true, [5]⟩]
    (fun x => x) (.ok [1, 2, 3, 4, 5]) (.ok [])
    [⟨0, 100⟩, ⟨1, 100⟩, ⟨2, 100⟩] [] rfl).1 rfl
  refine ⟨h2, h3, ?_⟩
  intro r hr
  have := h6 r hr
  simpa using this

/-- `execute` with a cached token and an ok queued response returns the
parsed body after one dispatch. -/
theorem execute_ok_token {β : Type} (m : HTTP_METHOD) (e : String)
    (p : List (String × String)) (pl : Option String) (is_retry : Bool)
    (w : World β) (t : Token) (r : HttpResponse β)
    (rest : List (HttpResponse β)) (hTok : w.token = some t)
    (hQ : w.httpQueue = r :: rest) (hok : r.ok = true) :
    ∃ w₁ : World β,
      execute m e p pl is_retry w = some (.ok r.body, w₁) ∧
      w₁.token = some t ∧ w₁.authQueue = w.authQueue ∧
      w₁.authCalls = w.authCalls ∧ w₁.httpQueue = rest ∧
      w₁.httpLog = w.httpLog ++ [⟨m, e, p, pl⟩] := by
  obtain ⟨k, w₁, hatt, _, _, _, _, _, _, ht, haq, hac, hhq, hhl, _, _⟩ :=
    executeAttempt_token m e p pl w t r rest hTok hQ
  exact ⟨w₁, by simp [execute, hatt, hok], ht, haq, hac, hhq, hhl⟩

/-- `execute` with a cached token and a failing non-401 queued response
throws the descriptive HTTP error after one dispatch. -/
theorem execute_fail_token {β : Type} (m : HTTP_METHOD) (e : String)
    (p : List (String × String)) (pl : Option String) (is_retry : Bool)
    (w : World β) (t : Token) (r : HttpResponse β)
    (rest : List (HttpResponse β)) (hTok : w.token = some t)
    (hQ : w.httpQueue = r :: rest) (hok : r.ok = false)
    (hst : r.status ≠ 401) :
    ∃ w₁ : World β,
      execute m e p pl is_retry w =
        some (.error (.httpError r.url r.status r.statusText), w₁) ∧
      w₁.token = some t ∧ w₁.authQueue = w.authQueue ∧
      w₁.authCalls = w.authCalls ∧ w₁.httpQueue = rest ∧
      w₁.httpLog = w.httpLog ++ [⟨m, e, p, pl⟩] := by
  obtain ⟨k, w₁, hatt, _, _, _, _, _, _, ht, haq, hac, hhq, hhl, _, _⟩ :=
    executeAttempt_token m e p pl w t r rest hTok hQ
  exact ⟨w₁, by simp [execute, hatt, hok, hst], ht, haq, hac, hhq, hhl⟩

/-- Claim C8: each best-effort relationship method
(`ServiceLine.add_terminal`, `ServiceLine.remove_terminal`,
`Account.add_user_terminal`, `Account.remove_user_terminal`) never
propagates an exception: its result is exactly the underlying pipeline's
result with the outcome collapsed to a boolean — true when the request
completed, false when the pipeline threw for any reason, with the error
discarded. -/
theorem claim_C8_best_effort_boolean {β : Type}
    (accountNumber terminalId serviceLineNumber deviceId : String)
    (w : World β) :
    add_terminal accountNumber terminalId serviceLineNumber w =
      (execute .POST
        (terminalAttachEndpoint accountNumber terminalId serviceLineNumber)
        [] none false w).map (fun q => (q.1.isOk, q.2)) ∧
    remove_terminal accountNumber terminalId serviceLineNumber w =
      (execute .DELETE
        (terminalAttachEndpoint accountNumber terminalId serviceLineNumber)
        [] none false w).map (fun q => (q.1.isOk, q.2)) ∧
    add_user_terminal accountNumber deviceId w =
      (execute .POST (userTerminalEndpoint accountNumber deviceId)
        [] none false w).map (fun q => (q.1.isOk, q.2)) ∧
    remove_user_terminal accountNumber deviceId w =
      (execute .DELETE (userTerminalEndpoint accountNumber deviceId)
        [] none false w).map (fun q => (q.1.isOk, q.2)) := by
  refine ⟨?_, ?_, ?_, ?_⟩
  · cases h : execute .POST
        (terminalAttachEndpoint accountNumber terminalId serviceLineNumber)
        [] none false w with
    | none => simp [add_terminal, h]
    | some q =>
      obtain ⟨res, w'⟩ := q
      cases res <;> simp [add_terminal, h, Except.isOk, Except.toBool]
  · cases h : execute .DELETE
        (terminalAttachEndpoint accountNumber terminalId serviceLineNumber)
        [] none false w with
    | none => simp [remove_terminal, h]
    | some q =>
      obtain ⟨res, w'⟩ := q
      cases res <;> simp [remove_terminal, h, Except.isOk, Except.toBool]
  · cases h : execute .POST (userTerminalEndpoint accountNumber deviceId)
        [] none false w with
    | none => simp [add_user_terminal, h]
    | some q =>
      obtain ⟨res, w'⟩ := q
      cases res <;> simp [add_user_terminal, h, Except.isOk, Except.toBool]
  · cases h : execute .DELETE (userTerminalEndpoint accountNumber deviceId)
        [] none false w with
    | none => simp [remove_user_terminal, h]
    | some q =>
      obtain ⟨res, w'⟩ := q
      cases res <;> simp [remove_user_terminal, h, Except.isOk, Except.toBool]

/-- Claim C9: with no dirty flag set, `save` issues no HTTP request at all
(the world, including the dispatch log, is returned untouched) and returns
false. -/
theorem claim_C9_save_no_changes (fl : ServiceLineFlags)
    (sl : ServiceLineModel) (w : World ServiceLineModel)
    (h1 : fl.nickname_updated = false) (h2 : fl.product_updated = false)
    (h3 : fl.public_ip_updated = false) :
    save fl sl w = some (false, fl, sl, w) := by
  simp [save, saveProductStep, savePublicIpStep, saveFinish, h1, h2, h3]

/-- Claim C9 witness: a concrete clean instance saves to false with the
world untouched. -/
theorem claim_C9_save_no_changes_witness :
    save ⟨false, false, false⟩ ⟨"acct", "sl1", some "nick", "prod", false⟩
      { token := none, cacheKeys := [], clock := 0, authQueue := [],
        httpQueue := [], httpLog := [], authCalls := 0 } =
      some (false, ⟨false, false, false⟩,
        ⟨"acct", "sl1", some "nick", "prod", false⟩,
        { token := none, cacheKeys := [], clock := 0, authQueue := [],
          httpQueue := [], httpLog := [], authCalls := 0 }) :=
  claim_C9_save_no_changes ⟨false, false, false⟩
    ⟨"acct", "sl1", some "nick", "prod", false⟩
    { token := none, cacheKeys := [], clock := 0, authQueue := [],
      httpQueue := [], httpLog := [], authCalls := 0 } rfl rfl rfl

/-- Claim C10: `save` is not atomic across fields — it applies the pending
nickname, product and public-ip updates as separate sequential PUTs in that
fixed order; when the nickname PUT succeeds and the product PUT throws,
`save` returns false while the nickname PUT has already been dispatched
(it remains applied remotely), the nickname dirty flag is already cleared,
and the product dirty flag is still set. -/
theorem claim_C10_save_not_atomic (fl : ServiceLineFlags)
    (sl : ServiceLineModel) (w : World ServiceLineModel) (t : Token)
    (r₁ r₂ r₃ : HttpResponse ServiceLineModel)
    (rest₁ rest₂ : List (HttpResponse ServiceLineModel))
    (hn : fl.nickname_updated = true) (hp : fl.product_updated = true)
    (hTok : w.token = some t) :
    (w.httpQueue = r₁ :: r₂ :: rest₁ → r₁.ok = true → r₂.ok = false →
      r₂.status ≠ 401 →
      ∃ w' : World ServiceLineModel,
        save fl sl w =
          some (false, { fl with nickname_updated := false }, sl, w') ∧
        w'.httpLog = w.httpLog ++
          [⟨.PUT, nicknameEndpoint sl, [], some (nicknamePayload sl)⟩,
           ⟨.PUT, productEndpoint sl, [], none⟩] ∧
        w'.httpQueue = rest₁) ∧
    (fl.public_ip_updated = true → w.httpQueue = r₁ :: r₂ :: r₃ :: rest₂ →
      r₁.ok = true → r₂.ok = true → r₃.ok = true →
      ∃ w' : World ServiceLineModel,
        save fl sl w = some (true, ⟨false, false, false⟩,
          { r₃.body with accountNumber := sl.accountNumber }, w') ∧
        w'.httpLog = w.httpLog ++
          [⟨.PUT, nicknameEndpoint sl, [], some (nicknamePayload sl)⟩,
           ⟨.PUT, productEndpoint sl, [], none⟩,
           ⟨.PUT, publicIpEndpoint sl, [], some (publicIpPayload sl)⟩] ∧
        w'.httpQueue = rest₂) := by
  constructor
  · intro hQ h1 h2 h2s
    obtain ⟨w₁, hex1, ht₁, _, _, hhq₁, hhl₁⟩ := execute_ok_token .PUT
      (nicknameEndpoint sl) [] (some (nicknamePayload sl)) false w t r₁
      (r₂ :: rest₁) hTok hQ h1
    obtain ⟨w₂, hex2, _, _, _, hhq₂, hhl₂⟩ := execute_fail_token .PUT
      (productEndpoint sl) [] none false w₁ t r₂ rest₁ ht₁ hhq₁ h2 h2s
    refine ⟨w₂, ?_, ?_, hhq₂⟩
    · simp [save, hn, hex1, saveProductStep, hp, hex2]
    · rw [hhl₂, hhl₁]
      simp
  · intro hpub hQ h1 h2 h3
    obtain ⟨w₁, hex1, ht₁, _, _, hhq₁, hhl₁⟩ := execute_ok_token .PUT
      (nicknameEndpoint sl) [] (some (nicknamePayload sl)) false w t r₁
      (r₂ :: r₃ :: rest₂) hTok hQ h1
    obtain ⟨w₂, hex2, ht₂, _, _, hhq₂, hhl₂⟩ := execute_ok_token .PUT
      (productEndpoint sl) [] none false w₁ t r₂ (r₃ :: rest₂) ht₁ hhq₁ h2
    obtain ⟨w₃, hex3, _, _, _, hhq₃, hhl₃⟩ := execute_ok_token .PUT
      (publicIpEndpoint sl) [] (some (publicIpPayload sl)) false w₂ t r₃
      rest₂ ht₂ hhq₂ h3
    refine ⟨w₃, ?_, ?_, hhq₃⟩
    · simp [save, hn, hex1, saveProductStep, hp, hex2, savePublicIpStep,
        hpub, hex3, saveFinish]
    · rw [hhl₃, hhl₂, hhl₁]
      simp

/-- Claim C10 witness: a concrete run with dirty nickname and product where
the nickname PUT succeeds (200) and the product PUT fails (500): save
returns false, the nickname dirty flag is cleared, the product flag remains
set, and both PUTs were dispatched in order. -/
theorem claim_C10_save_not_atomic_witness :
    ∃ w' : World ServiceLineModel,
      save ⟨true, true, false⟩ ⟨"A", "SL", some "n", "P", false⟩
        { token := some ⟨"t", "Bearer"⟩, cacheKeys := [], clock := 0,
          authQueue := [],
          httpQueue :=
            [⟨true, 200, "OK", "https://u",
              ⟨"X", "SL", some "n", "P", false⟩⟩,
             ⟨false, 500, "Server Error", "https://u",
              ⟨"X", "SL", some "n", "P", false⟩⟩],
          httpLog := [], authCalls := 0 } =
        some (false, ⟨false, true, false⟩,
          ⟨"A", "SL", some "n", "P", false⟩, w') ∧
      w'.httpLog =
        [⟨.PUT, nicknameEndpoint ⟨"A", "SL", some "n", "P", false⟩, [],
          some (nicknamePayload ⟨"A", "SL", some "n", "P", false⟩)⟩,
         ⟨.PUT, productEndpoint ⟨"A", "SL", some "n", "P", false⟩, [],
          none⟩] ∧
      w'.httpQueue = [] := by
  obtain ⟨w', hs, hl, hq⟩ := (claim_C10_save_not_atomic ⟨true, true, false⟩
    ⟨"A", "SL", some "n", "P", false⟩
    { token := some ⟨"t", "Bearer"⟩, cacheKeys := [], clock := 0,
      authQueue := [],
      httpQueue :=
        [⟨true, 200, "OK", "https://u", ⟨"X", "SL", some "n", "P", false⟩⟩,
         ⟨false, 500, "Server Error", "https://u",
          ⟨"X", "SL", some "n", "P", false⟩⟩],
      httpLog := [], authCalls := 0 } ⟨"t", "Bearer"⟩
    ⟨true, 200, "OK", "https://u", ⟨"X", "SL", some "n", "P", false⟩⟩
    ⟨false, 500, "Server Error", "https://u",
      ⟨"X", "SL", some "n", "P", false⟩⟩
    ⟨true, 200, "OK", "https://u", ⟨"X", "SL", some "n", "P", false⟩⟩
    [] [] rfl rfl rfl).1 rfl rfl rfl (by decide)
  exact ⟨w', hs, by simpa using hl, hq⟩

end StarlinkSpec
